import Mathlib

/- Verification of the yt-mp3 repository's background-playback synchronization
   and local streaming-cache subsystem, as a shallow embedding in Lean 4.

   The embedding covers, from the sources:
   - main.py: `cleanup_temp_files`, `manage_storage_size`,
     `cleanup_all_temp_files` (cache eviction sweeps over the
     `temp_streaming` directory), `download_for_streaming` (resolve-or-fetch
     streaming cache), `Root.update_progress` / `Root.stop_playback`
     (controller completion detection and playlist auto-advance),
     `Root.on_stream` / `Root.on_download` (request handlers and the
     single-worker guard), and `play_in_background` / `pause_in_background` /
     `stop_in_background` (command channel senders).
   - service.py: `run_service` (the executor polling loop, modelled as one
     loop iteration `run_service_step`), `on_completion` (terminal status
     publication).
   - android_player.py: `AndroidPlayer` (play/pause/resume/stop/seek and the
     `player` handle life cycle).

   Conventions: machine/file times are `Int` seconds; file sizes are `Nat`
   bytes (Python ints); the filesystem is an explicit list of entries; the
   Python GUI widget mutations (label texts, progress bars) are not part of
   the model. -/

namespace YtMp3

/-! ## Python string primitives

The model re-implements the few Python `str` operations the sources use over
explicit character lists, so that every definition evaluates inside the
kernel. -/

/-- Does the first character list start with the second
(Python `str.startswith`)? -/
def listStartsWith : List Char → List Char → Bool
  | _, [] => true
  | [], _ :: _ => false
  | c :: cs, p :: ps => c == p && listStartsWith cs ps

/-- Python `s.startswith(p)`. -/
def pyStartsWith (s p : String) : Bool := listStartsWith s.data p.data

/-- Strip leading and trailing whitespace from a character list. -/
def stripChars (cs : List Char) : List Char :=
  ((cs.dropWhile Char.isWhitespace).reverse.dropWhile Char.isWhitespace).reverse

/-- Python `s.strip()` (whitespace set approximated by `Char.isWhitespace`;
no command verb contains whitespace). -/
def pyStrip (s : String) : String := String.mk (stripChars s.data)

/-- Characters after the first `'|'`, or `[]` when there is none. Together
with `untilBar` this models `s.split("|")` item accesses. -/
def afterBar : List Char → List Char
  | [] => []
  | c :: cs => if c == '|' then cs else afterBar cs

/-- Characters before the first `'|'`. -/
def untilBar : List Char → List Char
  | [] => []
  | c :: cs => if c == '|' then [] else c :: untilBar cs

/-! ## Filesystem model for the cache sweeps (main.py) -/

/-- A file on disk: directory tag, file name, size in bytes, last-modified
time in whole seconds. `get_temp_dir()` is the `temp_streaming` directory
under the download root; other directories (e.g. the download root itself)
carry their own tag. -/
structure FileEntry where
  dir : String
  name : String
  size : Nat
  mtime : Int
deriving DecidableEq, Repr

/-- Directory tag for `get_temp_dir()`: `<download root>/temp_streaming`. -/
def tempDirName : String := "temp_streaming"

/-- Model of `os.listdir(temp_dir)`: the entries living in the temp
streaming directory. -/
def listTempDir (fs : List FileEntry) : List FileEntry :=
  fs.filter (fun e => e.dir == tempDirName)

/-- The cache entries proper: files in the temp dir whose names carry the
`temp_` name prefix, as selected by all three sweeps in main.py. -/
def tempEntries (fs : List FileEntry) : List FileEntry :=
  (listTempDir fs).filter (fun e => pyStartsWith e.name "temp_")

/-- Total size of a list of entries (running `total` in
`manage_storage_size`). -/
def sizeSum (l : List FileEntry) : Nat := (l.map FileEntry.size).sum

/-- Delete a computed list of files from the filesystem (the `os.remove`
calls of a sweep, applied to its removal list). -/
def removeAll (fs rem : List FileEntry) : List FileEntry :=
  fs.filter (fun e => decide (e ∉ rem))

/-- Files removed by one run of `cleanup_temp_files` (main.py:102-116):
entries of the temp dir with the `temp_` name prefix whose age
`now - mtime` is strictly greater than 1800 seconds. -/
def cleanupRemovals (now : Int) (fs : List FileEntry) : List FileEntry :=
  (listTempDir fs).filter
    (fun e => pyStartsWith e.name "temp_" && decide (1800 < now - e.mtime))

/-- One run of `cleanup_temp_files` (main.py:102-116): the periodic
age-based eviction sweep. -/
def cleanup_temp_files (now : Int) (fs : List FileEntry) : List FileEntry :=
  removeAll fs (cleanupRemovals now fs)

/-- Stable insertion by ascending mtime, the building block of
`files.sort(key=lambda x: x[2])` in `manage_storage_size`. -/
def insertByMtime (e : FileEntry) : List FileEntry → List FileEntry
  | [] => [e]
  | x :: xs => if x.mtime ≤ e.mtime then x :: insertByMtime e xs else e :: x :: xs

/-- Stable ascending sort by mtime: the model of Python's stable
`list.sort(key=lambda x: x[2])` (oldest entry first). -/
def sortByMtime : List FileEntry → List FileEntry
  | [] => []
  | e :: xs => insertByMtime e (sortByMtime xs)

/-- The deletion loop of `manage_storage_size` (main.py:136-145): walk the
mtime-sorted entries, breaking as soon as `total - freed <= max_size`,
otherwise deleting the entry and adding its size to `freed`. Returns the
deleted entries in deletion order. -/
def budgetLoop (total B : Nat) : Nat → List FileEntry → List FileEntry
  | _, [] => []
  | freed, e :: rest =>
    if total - freed ≤ B then []
    else e :: budgetLoop total B (freed + e.size) rest

/-- Files removed by one run of `manage_storage_size` with budget `B`:
nothing when the aggregate size is within budget, otherwise the result of
the oldest-first deletion loop. -/
def storageRemovalsWith (B : Nat) (fs : List FileEntry) : List FileEntry :=
  let files := tempEntries fs
  let total := sizeSum files
  if total ≤ B then []
  else budgetLoop total B 0 (sortByMtime files)

/-- One run of `manage_storage_size` (main.py:118-147) with the size budget
`B` left as a parameter. -/
def manage_storage_size_with (B : Nat) (fs : List FileEntry) : List FileEntry :=
  removeAll fs (storageRemovalsWith B fs)

/-- One run of `manage_storage_size` (main.py:118-147): the source
hard-codes `max_size = 1024 * 1024 * 1024` bytes. -/
def manage_storage_size (fs : List FileEntry) : List FileEntry :=
  manage_storage_size_with (1024 * 1024 * 1024) fs

/-- Files removed by `cleanup_all_temp_files` (main.py:521-533): every
`temp_`-prefixed file of the temp dir, unconditionally. -/
def purgeRemovals (fs : List FileEntry) : List FileEntry :=
  (listTempDir fs).filter (fun e => pyStartsWith e.name "temp_")

/-- One run of `cleanup_all_temp_files` (main.py:521-533): the full purge
used on session teardown. -/
def cleanup_all_temp_files (fs : List FileEntry) : List FileEntry :=
  removeAll fs (purgeRemovals fs)

/-! ## Streaming cache resolve-or-fetch (main.py `download_for_streaming`) -/

/-- Character sanitization of `download_for_streaming` (main.py:190):
`c if c.isalnum() or c in " ._-" else "_"`. `Char.isAlphanum` models
Python's `str.isalnum` (they agree on ASCII; no claim depends on non-ASCII
alphanumerics). -/
def sanitizeChar (c : Char) : Char :=
  if c.isAlphanum || c == ' ' || c == '.' || c == '_' || c == '-' then c
  else '_'

/-- The `safe_title` derivation (main.py:190):
`"".join(c if c.isalnum() or c in " ._-" else "_" for c in title)`. -/
def safe_title (title : String) : String :=
  String.mk (title.data.map sanitizeChar)

/-- The cache file name `f"temp_{safe_title}.{ext}"` (main.py:191). -/
def tempFilename (title ext : String) : String :=
  "temp_" ++ safe_title title ++ "." ++ ext

/-- The derived cache path `os.path.join(temp_dir, temp_filename)`
(main.py:192). -/
def tempPath (title ext : String) : String :=
  tempDirName ++ "/" ++ tempFilename title ext

/-- The cache directory as seen by `download_for_streaming`: the set of
paths that currently exist (`os.path.exists`). -/
structure CacheFS where
  files : List String
deriving DecidableEq, Repr

/-- Result of the first `extract_info` call (title, duration, ext);
`none` models a falsy `info`. -/
structure ResolvedInfo where
  title : String
  duration : Nat
  ext : String
deriving DecidableEq, Repr

/-- Outcome of one `download_for_streaming` call: the filesystem
afterwards, the returned `(file_path, title, duration)` (or `none` for the
`return None, None, None` paths), and how many times the fetch (the
downloading `YoutubeDL` invocation) ran. -/
structure StreamResult where
  fs : CacheFS
  result : Option (String × String × Nat)
  fetchCalls : Nat
deriving DecidableEq, Repr

/-- `download_for_streaming` (main.py:172-220). `fetch` stands for the
downloading `YoutubeDL(opts).extract_info(video_url, download=True)` call:
it returns the filesystem afterwards plus whether `info` was truthy (a
raised exception behaves like a falsy `info`: the `except` arm also
returns `None, None, None`). The progress-hook plumbing is UI-only and not
modelled. -/
def download_for_streaming (fs : CacheFS) (info : Option ResolvedInfo)
    (fetch : CacheFS → String → CacheFS × Bool) : StreamResult :=
  match info with
  | none => ⟨fs, none, 0⟩
  | some i =>
    let temp_path := tempPath i.title i.ext
    if fs.files.contains temp_path then
      ⟨fs, some (temp_path, i.title, i.duration), 0⟩
    else
      let fetched := fetch fs temp_path
      if !fetched.2 then ⟨fetched.1, none, 1⟩
      else if fetched.1.files.contains temp_path then
        ⟨fetched.1, some (temp_path, i.title, i.duration), 1⟩
      else ⟨fetched.1, none, 1⟩

/-! ## Command channel (main.py senders) and status channel files -/

/-- The single command file `service_cmd.txt`: its one-line content and its
modification time. -/
structure CmdFile where
  content : String
  mtime : Int
deriving DecidableEq, Repr

/-- A status record as written to `service_status.json`: either the
terminal completion record of `on_completion` (service.py:35-39, two keys)
or the periodic five-key snapshot of the loop body (service.py:79-87).
Times are kept in milliseconds; the source divides by 1000.0 when reading
the player (a float detail no claim depends on). The status file's own
mtime is not modelled (nothing in the sources reads it). -/
inductive StatusRec
  | completion (filePath : String)
  | periodic (isPlaying : Bool) (positionMs durationMs : Int)
      (filePath : String)
deriving DecidableEq, Repr

/-- The on-disk files of the command/status protocol. The two command
files are DISTINCT: main.py's senders write `service_cmd.txt` under
`get_download_root()` (on Android the public Downloads directory,
main.py:690), while service.py's executor polls `service_cmd.txt` under
`getExternalFilesDir(None)` (the app-private external-files directory,
service.py:31-32) — on Android those paths never coincide, so a sender
write never lands in the file the executor reads. The status file lives
next to the executor's command file. -/
structure ServiceFS where
  downloadsCmdFile : Option CmdFile := none
  appFilesCmdFile : Option CmdFile := none
  statusFile : Option StatusRec := none
deriving DecidableEq, Repr

/-- One `open(cmd_file, "w") ... f.write(line)` by a main.py sender:
overwrites the whole sender-side command file (the one under
`get_download_root()`); `t` is the resulting modification time. -/
def sendCmd (fs : ServiceFS) (line : String) (t : Int) : ServiceFS :=
  { fs with downloadsCmdFile := some { content := line, mtime := t } }

/-- `play_in_background` (main.py:688-694): writes `PLAY|<file_path>`.
(The Android `start_music_service` side effect is process management, not
channel state.) -/
def play_in_background (fs : ServiceFS) (filePath : String) (t : Int) :
    ServiceFS :=
  sendCmd fs ("PLAY|" ++ filePath) t

/-- `pause_in_background` (main.py:696-699): writes `PAUSE`. -/
def pause_in_background (fs : ServiceFS) (t : Int) : ServiceFS :=
  sendCmd fs "PAUSE" t

/-- `stop_in_background` (main.py:701-706): writes `STOP`. -/
def stop_in_background (fs : ServiceFS) (t : Int) : ServiceFS :=
  sendCmd fs "STOP" t

/-- The executor's new-command check (service.py:47-53): if ITS command
file — the one under `getExternalFilesDir(None)`, which the main.py
senders never write — exists and its mtime is strictly newer than the
last seen one, read and strip its content; otherwise nothing. -/
def receive_if_new (lastSeen : Int) (fs : ServiceFS) :
    Option (String × Int) :=
  match fs.appFilesCmdFile with
  | none => none
  | some cf =>
    if lastSeen < cf.mtime then some (pyStrip cf.content, cf.mtime)
    else none

/-! ## The Android player (android_player.py) -/

/-- State of the underlying `android.media.MediaPlayer` handle. -/
structure MediaPlayerJ where
  dataSource : Option String := none
  playing : Bool := false
  positionMs : Int := 0
  durationMs : Int := 0
deriving DecidableEq, Repr

/-- `AndroidPlayer` (android_player.py:19-81). `player` is the `self.player`
handle, `none` once `stop()` has released it. `currentFilePath` models the
`current_file_path` attribute that service.py reads: it is NEVER assigned
anywhere in the repository, so it starts as `none` (reading it raises
`AttributeError`) and no method below sets it. -/
structure AndroidPlayer where
  player : Option MediaPlayerJ
  currentFilePath : Option String := none
deriving DecidableEq, Repr

/-- `AndroidPlayer.__init__`: a fresh `MediaPlayer()` handle with the
completion listener registered; `current_file_path` left unset. -/
def AndroidPlayer.init : AndroidPlayer :=
  { player := some {}, currentFilePath := none }

/-- `is_playing` (android_player.py:73-81): `False` once the handle is
released (and on the swallowed illegal-state exception). -/
def AndroidPlayer.is_playing (ap : AndroidPlayer) : Bool :=
  match ap.player with
  | some mp => mp.playing
  | none => false

/-- `play` (android_player.py:32-43): stop-if-playing, `reset()`,
`setDataSource(file_path)`, `prepare()`, `start()`. With a released handle
(`self.player is None`) the `reset()` call raises; `play`'s own `except`
catches it and leaves the state unchanged. Note: `current_file_path` is
not assigned. -/
def AndroidPlayer.play (ap : AndroidPlayer) (path : String) : AndroidPlayer :=
  match ap.player with
  | some _ =>
    { ap with player := some { dataSource := some path, playing := true } }
  | none => ap

/-- `pause` (android_player.py:45-48): pauses only while playing. -/
def AndroidPlayer.pause (ap : AndroidPlayer) : AndroidPlayer :=
  if ap.is_playing then
    { ap with player := ap.player.map (fun mp => { mp with playing := false }) }
  else ap

/-- `resume` (android_player.py:50-53): `self.player.start()` when not
playing. With a released handle this raises `AttributeError`, which the
service loop's `except` swallows: state unchanged. -/
def AndroidPlayer.resume (ap : AndroidPlayer) : AndroidPlayer :=
  if ap.is_playing then ap
  else
    match ap.player with
    | some mp => { ap with player := some { mp with playing := true } }
    | none => ap

/-- `stop` (android_player.py:55-61): stop-if-playing, `release()`, and
`self.player = None`. -/
def AndroidPlayer.stop (ap : AndroidPlayer) : AndroidPlayer :=
  match ap.player with
  | some _ => { ap with player := none }
  | none => ap

/-- `seek` (android_player.py:63-65): `seekTo(int(position_ms))` when the
handle is present. -/
def AndroidPlayer.seek (ap : AndroidPlayer) (ms : Int) : AndroidPlayer :=
  match ap.player with
  | some mp => { ap with player := some { mp with positionMs := ms } }
  | none => ap

/-! ## The executor loop (service.py `run_service`) -/

/-- A Python runtime error relevant to this subsystem. -/
inductive PyErr
  | attributeError
  | valueError
deriving DecidableEq, Repr

/-- `on_completion` (service.py:35-39): the record the completion callback
tries to write. It reads `player.current_file_path`; since that attribute
is never assigned, the read raises `AttributeError` (nothing catches it in
the callback) and the record is not written. -/
def on_completion_write (ap : AndroidPlayer) (fs : ServiceFS) :
    Except PyErr ServiceFS :=
  match ap.currentFilePath with
  | none => Except.error PyErr.attributeError
  | some p =>
    Except.ok { fs with statusFile := some (StatusRec.completion p) }

/-- Executor-side loop state: the `last_mtime` cursor, the global `player`,
and whether the `while True` loop is still alive (`break` has not run). -/
structure ExecState where
  lastMtime : Int
  player : AndroidPlayer
  running : Bool
deriving DecidableEq, Repr

/-- Parse the SEEK argument `cmd.split("|")[1]` as a whole number of
seconds. The source computes `float(arg) * 1000`; fractional seconds
(which Python would accept) are treated like the `ValueError` case here —
no claim depends on seek offsets. A `ValueError` is caught by the loop's
`except`, leaving the player untouched. -/
def parseDigitsAux : List Char → Nat → Option Nat
  | [], acc => some acc
  | c :: cs, acc =>
    if c.isDigit then parseDigitsAux cs (acc * 10 + (c.toNat - 48))
    else none

/-- All-digit parse of a nonempty character list. -/
def parseDigits : List Char → Option Nat
  | [] => none
  | c :: cs => parseDigitsAux (c :: cs) 0

/-- Signed integer parse of the SEEK argument. -/
def parseIntChars : List Char → Option Int
  | '-' :: cs => (parseDigits cs).map (fun n => -(n : Int))
  | cs => (parseDigits cs).map (fun n => (n : Int))

/-- The command dispatch of the loop body (service.py:57-72), applied to
the stripped command line. A `STOP` stops the player, deletes the status
file, calls `service.stopSelf()` and breaks out of the loop
(`running := false`). Any unrecognized line matches no branch and is
ignored. -/
def dispatchCmd (s : ExecState) (fs : ServiceFS) (cmd : String) :
    ExecState × ServiceFS :=
  if pyStartsWith cmd "PLAY|" then
    ({ s with player := s.player.play (String.mk (afterBar cmd.data)) }, fs)
  else if cmd == "PAUSE" then ({ s with player := s.player.pause }, fs)
  else if cmd == "RESUME" then ({ s with player := s.player.resume }, fs)
  else if cmd == "STOP" then
    ({ s with player := s.player.stop, running := false },
     { fs with statusFile := none })
  else if pyStartsWith cmd "SEEK|" then
    match parseIntChars (untilBar (afterBar cmd.data)) with
    | some sec => ({ s with player := s.player.seek (sec * 1000) }, fs)
    | none => (s, fs)
  else (s, fs)

/-- The command-polling half of one loop iteration (service.py:46-74):
when the executor's own command file (app-files dir) is newer than
`last_mtime`, update the cursor, read and strip the line, and dispatch
it. -/
def pollCmd (s : ExecState) (fs : ServiceFS) : ExecState × ServiceFS :=
  match fs.appFilesCmdFile with
  | none => (s, fs)
  | some cf =>
    if s.lastMtime < cf.mtime then
      dispatchCmd { s with lastMtime := cf.mtime } fs (pyStrip cf.content)
    else (s, fs)

/-- The status-publishing half of one loop iteration (service.py:76-92):
skipped when the handle is released; the read of
`player.current_file_path` raises `AttributeError`, which the `except`
logs — so with the attribute absent nothing is written. -/
def writeStatus (ap : AndroidPlayer) (fs : ServiceFS) : ServiceFS :=
  match ap.player with
  | none => fs
  | some mp =>
    match ap.currentFilePath with
    | none => fs
    | some p =>
      { fs with
        statusFile :=
          some (StatusRec.periodic ap.is_playing mp.positionMs mp.durationMs p) }

/-- One iteration of `run_service`'s `while True` loop (service.py:45-94):
poll the command file, then — unless `break` ran — publish status. -/
def run_service_step (s : ExecState) (fs : ServiceFS) :
    ExecState × ServiceFS :=
  let polled := pollCmd s fs
  if polled.1.running then (polled.1, writeStatus polled.1.player polled.2)
  else polled

/-- Was the command observed by this iteration (on the executor's own
command file) a fresh `STOP`? (Used to state when the loop exits.) -/
def newCmdIsStop (s : ExecState) (fs : ServiceFS) : Bool :=
  match fs.appFilesCmdFile with
  | none => false
  | some cf => decide (s.lastMtime < cf.mtime) && (pyStrip cf.content == "STOP")

/-! ## The controller (main.py `Root`) -/

/-- The VLC player states `update_progress` distinguishes
(main.py:418-430); `other` covers NothingSpecial/Opening/Buffering/Error. -/
inductive VLCState
  | playing
  | paused
  | stopped
  | ended
  | other
deriving DecidableEq, Repr

/-- The controller-side state of `Root` (main.py:225-238) restricted to the
fields the claims touch. `mediaPlayer` is `self.media_player`, carrying the
path the `vlc.MediaPlayer(file_path)` was created with; `workerAlive`
models `self._worker and self._worker.is_alive()`; widget texts and the
volume/progress bars are UI-only and unmodelled. -/
structure RootState where
  mediaPlayer : Option String
  is_playing : Bool
  playlist_urls : List String
  current_index : Nat
  autoplay_enabled : Bool
  progressEvent : Bool
  workerAlive : Bool
deriving DecidableEq, Repr

/-- `stop_playback` (main.py:444-458): releases the player, clears the
playing flag, unschedules the progress timer (and resets UI widgets, not
modelled). -/
def stop_playback (r : RootState) : RootState :=
  { r with mediaPlayer := none, is_playing := false, progressEvent := false }

/-- One `update_progress` tick (main.py:414-439) given the observed VLC
state. Returns the new controller state plus the list of track loads
started this tick (`_load_track_for_streaming` calls; the payload is the
url passed). On Stopped/Ended: `stop_playback`, then — with autoplay on, a
nonempty playlist, and `current_index < len - 1` — advance the index and
load the entry at the new index. Playing/Paused ticks only refresh UI
text. -/
def update_progress (r : RootState) (obs : VLCState) :
    RootState × List String :=
  match r.mediaPlayer with
  | none => (r, [])
  | some _ =>
    match obs with
    | VLCState.stopped | VLCState.ended =>
      let r1 := stop_playback r
      if r1.autoplay_enabled && !r1.playlist_urls.isEmpty
          && decide (r1.current_index < r1.playlist_urls.length - 1) then
        let r2 := { r1 with current_index := r1.current_index + 1 }
        (r2, [r2.playlist_urls.getD r2.current_index ""])
      else (r1, [])
    | _ => (r, [])

/-- Run `update_progress` over a sequence of poll observations, counting
the track loads (completion events) produced. -/
def controllerRun (r : RootState) : List VLCState → Nat
  | [] => 0
  | obs :: rest =>
    let step := update_progress r obs
    step.2.length + controllerRun step.1 rest

/-- Is the observed VLC state terminal (the `state in (vlc.State.Stopped,
vlc.State.Ended)` test)? -/
def terminalVLC : VLCState → Bool
  | VLCState.stopped => true
  | VLCState.ended => true
  | _ => false

/-- `on_stream` / `on_download` request outcomes as surfaced to the user
via `set_status`. -/
inductive ReqOutcome
  | started
  | busy
  | noUrl
  | noVlc
deriving DecidableEq, Repr

/-- `on_stream` (main.py:287-304): empty url and missing VLC are rejected;
otherwise `stop_playback` runs and a loader thread is spawned
unconditionally — the thread is not stored in `self._worker` and no
busy check exists on this path (playlist and single-track urls differ only
in which loader the thread runs). -/
def on_stream (r : RootState) (inputText : String) (vlcAvailable : Bool) :
    RootState × ReqOutcome :=
  if pyStrip inputText == "" then (r, ReqOutcome.noUrl)
  else if !vlcAvailable then (r, ReqOutcome.noVlc)
  else (stop_playback r, ReqOutcome.started)

/-- `on_download` (main.py:483-497): empty url rejected; then — after
permissions and task construction — a second download while
`self._worker.is_alive()` is rejected with the busy status; otherwise the
worker thread is started and stored in `self._worker`. -/
def on_download (r : RootState) (inputText : String) :
    RootState × ReqOutcome :=
  if pyStrip inputText == "" then (r, ReqOutcome.noUrl)
  else if r.workerAlive then (r, ReqOutcome.busy)
  else ({ r with workerAlive := true }, ReqOutcome.started)

/-! ## Spec-side dedup model (for comparison with the source controller)

Modelled from the spec: "the controller must process it exactly once
(deduplicated by comparing file_path against the last-seen in-flight
file_path)" / "dedupe by remembering the file_path of the last-processed
completion". This definition follows the spec's words, NOT the source; it
exists to compare the claimed mechanism against what main.py does. -/

/-- Spec-modelled dedup state: the file_path of the last-processed
completion. -/
structure SpecDedupState where
  lastCompletedPath : Option String
deriving DecidableEq, Repr

/-- Spec-modelled dedup step: consume one status snapshot
`(completed, file_path)`; fire a completion event iff the snapshot is
completed and its file_path differs from the last-processed one. -/
def specDedupStep (d : SpecDedupState) (completed : Bool) (path : String) :
    SpecDedupState × Bool :=
  if completed && !(d.lastCompletedPath == some path) then
    ({ lastCompletedPath := some path }, true)
  else (d, false)

/-- Run the spec-modelled dedup over a snapshot sequence, counting fired
completion events. -/
def specDedupRun (d : SpecDedupState) : List (Bool × String) → Nat
  | [] => 0
  | (c, p) :: rest =>
    let step := specDedupStep d c p
    (if step.2 then 1 else 0) + specDedupRun step.1 rest

/-! ## Concrete instances used by witnesses and counterexamples -/

/-- A controller mid-playback: three-entry playlist, first entry playing,
autoplay on. -/
def rPlaying : RootState :=
  { mediaPlayer := some "/tmp/A.m4a", is_playing := true,
    playlist_urls := ["u0", "u1", "u2"], current_index := 0,
    autoplay_enabled := true, progressEvent := true, workerAlive := false }

/-- The same controller at the last playlist entry. -/
def rLast : RootState := { rPlaying with current_index := 2 }

/-- A controller whose download worker is alive. -/
def rBusy : RootState :=
  { mediaPlayer := none, is_playing := false, playlist_urls := [],
    current_index := 0, autoplay_enabled := true, progressEvent := false,
    workerAlive := true }

/-- A live executor that has not yet seen any command, its player playing
a track. -/
def sRun : ExecState :=
  { lastMtime := 0,
    player :=
      { player := some { dataSource := some "/tmp/x.m4a", playing := true,
                         positionMs := 0, durationMs := 0 },
        currentFilePath := none },
    running := true }

/-- A fresh `STOP` line sitting in the executor's own command file,
awaiting its next poll. -/
def fsStop : ServiceFS :=
  { downloadsCmdFile := none,
    appFilesCmdFile := some { content := "STOP", mtime := 5 },
    statusFile := none }

/-- Cache entries over budget: two temp files, total 15 bytes. -/
def fsOver : List FileEntry :=
  [{ dir := tempDirName, name := "temp_old.m4a", size := 10, mtime := 1 },
   { dir := tempDirName, name := "temp_new.m4a", size := 5, mtime := 2 }]

/-- Cache entries under budget: one 3-byte temp file. -/
def fsUnder : List FileEntry :=
  [{ dir := tempDirName, name := "temp_a.m4a", size := 3, mtime := 1 }]

/-- A resolved track for the cache witness. -/
def infoW : ResolvedInfo :=
  { title := "My Song: Live!", duration := 7, ext := "m4a" }

/-- Predicate for files OUTSIDE the sweeps' target set: anything that is
not a `temp_`-prefixed file of the temp streaming directory (final
downloads in the download root in particular). -/
def keepPred (e : FileEntry) : Bool :=
  !((e.dir == tempDirName) && pyStartsWith e.name "temp_")

/-- A fetch that materializes the requested path and reports success. -/
def fetchW : CacheFS → String → CacheFS × Bool :=
  fun fs p => (⟨p :: fs.files⟩, true)

/-! ### Helper lemmas about the sweeps -/

theorem removeAll_of_filter (l : List FileEntry) (p : FileEntry → Bool) :
    removeAll l (l.filter p) = l.filter (fun e => !p e) := by
  refine List.filter_congr ?_
  intro x hx
  by_cases hp : p x = true
  · simp [List.mem_filter, hx, hp]
  · simp [List.mem_filter, hp]

theorem removeAll_frame (l rem : List FileEntry) (p : FileEntry → Bool)
    (h : ∀ e ∈ rem, p e = false) :
    (removeAll l rem).filter p = l.filter p := by
  unfold removeAll
  rw [List.filter_filter]
  refine List.filter_congr ?_
  intro x _
  by_cases hp : p x = true
  · have hx : x ∉ rem := fun hm => by simp [h x hm] at hp
    simp [hp, hx]
  · simp [Bool.eq_false_iff.mpr hp]

theorem insertByMtime_perm (e : FileEntry) (l : List FileEntry) :
    (insertByMtime e l).Perm (e :: l) := by
  induction l with
  | nil => exact List.Perm.refl _
  | cons x xs ih =>
    by_cases h : x.mtime ≤ e.mtime
    · simp only [insertByMtime, if_pos h]
      exact (ih.cons x).trans (List.Perm.swap e x xs)
    · simp only [insertByMtime, if_neg h]
      exact List.Perm.refl _

theorem sortByMtime_perm (l : List FileEntry) : (sortByMtime l).Perm l := by
  induction l with
  | nil => exact List.Perm.refl _
  | cons e xs ih =>
    exact (insertByMtime_perm e (sortByMtime xs)).trans (ih.cons e)

theorem sizeSum_of_perm {l l' : List FileEntry} (h : l.Perm l') :
    sizeSum l = sizeSum l' := by
  unfold sizeSum
  exact (h.map FileEntry.size).sum_eq

theorem insertByMtime_pairwise (e : FileEntry) (l : List FileEntry)
    (h : List.Pairwise (fun a b => a.mtime ≤ b.mtime) l) :
    List.Pairwise (fun a b => a.mtime ≤ b.mtime) (insertByMtime e l) := by
  induction l with
  | nil => simp [insertByMtime]
  | cons x xs ih =>
    rcases List.pairwise_cons.mp h with ⟨hx, hxs⟩
    by_cases hle : x.mtime ≤ e.mtime
    · simp only [insertByMtime, if_pos hle]
      refine List.Pairwise.cons ?_ (ih hxs)
      intro y hy
      have hmem : y = e ∨ y ∈ xs :=
        List.mem_cons.mp ((insertByMtime_perm e xs).mem_iff.mp hy)
      rcases hmem with rfl | hmem
      · exact hle
      · exact hx y hmem
    · simp only [insertByMtime, if_neg hle]
      have he : e.mtime ≤ x.mtime := le_of_not_le hle
      refine List.Pairwise.cons ?_ h
      intro y hy
      rcases List.mem_cons.mp hy with rfl | hmem
      · exact he
      · exact le_trans he (hx y hmem)

theorem sortByMtime_pairwise (l : List FileEntry) :
    List.Pairwise (fun a b => a.mtime ≤ b.mtime) (sortByMtime l) := by
  induction l with
  | nil => simp [sortByMtime]
  | cons e xs ih => exact insertByMtime_pairwise e (sortByMtime xs) ih

theorem budgetLoop_nil (total B freed : Nat) :
    budgetLoop total B freed [] = [] := rfl

theorem budgetLoop_cons (total B freed : Nat) (e : FileEntry)
    (rest : List FileEntry) :
    budgetLoop total B freed (e :: rest)
      = if total - freed ≤ B then []
        else e :: budgetLoop total B (freed + e.size) rest := rfl

theorem sizeSum_nil : sizeSum [] = 0 := rfl

theorem sizeSum_cons (e : FileEntry) (l : List FileEntry) :
    sizeSum (e :: l) = e.size + sizeSum l := by
  simp [sizeSum]

theorem budgetLoop_take (total B : Nat) :
    ∀ (l : List FileEntry) (freed : Nat),
      budgetLoop total B freed l
        = l.take (budgetLoop total B freed l).length := by
  intro l
  induction l with
  | nil => intro freed; rw [budgetLoop_nil]; rfl
  | cons e rest ih =>
    intro freed
    rw [budgetLoop_cons]
    by_cases h : total - freed ≤ B
    · rw [if_pos h]; rfl
    · rw [if_neg h]
      simp only [List.length_cons, List.take_succ_cons]
      exact congrArg (e :: ·) (ih (freed + e.size))

theorem budgetLoop_under (total B : Nat) :
    ∀ (l : List FileEntry) (freed : Nat), total ≤ freed + sizeSum l →
      total - (freed + sizeSum (budgetLoop total B freed l)) ≤ B := by
  intro l
  induction l with
  | nil =>
    intro freed h
    rw [budgetLoop_nil]
    rw [sizeSum_nil] at *
    omega
  | cons e rest ih =>
    intro freed h
    rw [budgetLoop_cons]
    by_cases hb : total - freed ≤ B
    · rw [if_pos hb, sizeSum_nil]
      omega
    · rw [if_neg hb, sizeSum_cons]
      rw [sizeSum_cons] at h
      have hrec := ih (freed + e.size) (by omega)
      omega

theorem budgetLoop_min (total B : Nat) :
    ∀ (l : List FileEntry) (freed : Nat) (k : Nat),
      k < (budgetLoop total B freed l).length →
      B < total - (freed + sizeSum ((budgetLoop total B freed l).take k)) := by
  intro l
  induction l with
  | nil => intro freed k hk; rw [budgetLoop_nil] at hk; simp at hk
  | cons e rest ih =>
    intro freed k hk
    rw [budgetLoop_cons] at hk ⊢
    by_cases hb : total - freed ≤ B
    · rw [if_pos hb] at hk; simp at hk
    · rw [if_neg hb] at hk ⊢
      simp only [List.length_cons] at hk
      cases k with
      | zero =>
        rw [List.take_zero, sizeSum_nil]
        omega
      | succ k =>
        have hrec := ih (freed + e.size) k (by omega)
        rw [List.take_succ_cons, sizeSum_cons]
        omega

theorem budgetLoop_subset (total B : Nat) (l : List FileEntry) (freed : Nat) :
    ∀ e ∈ budgetLoop total B freed l, e ∈ l := by
  intro e he
  have h := budgetLoop_take total B l freed
  rw [h] at he
  exact (List.take_sublist _ _).subset he

theorem cleanupRemovals_eq (now : Int) (fs : List FileEntry) :
    cleanupRemovals now fs
      = fs.filter (fun e =>
          (pyStartsWith e.name "temp_" && decide (1800 < now - e.mtime))
            && (e.dir == tempDirName)) := by
  unfold cleanupRemovals listTempDir
  exact List.filter_filter _ _

theorem tempEntries_eq (fs : List FileEntry) :
    tempEntries fs
      = fs.filter (fun e =>
          pyStartsWith e.name "temp_" && (e.dir == tempDirName)) := by
  unfold tempEntries listTempDir
  exact List.filter_filter _ _

theorem cleanupRemovals_matches (now : Int) (fs : List FileEntry) :
    ∀ e ∈ cleanupRemovals now fs, keepPred e = false := by
  intro e he
  rw [cleanupRemovals_eq] at he
  rcases List.mem_filter.mp he with ⟨_, hp⟩
  unfold keepPred
  cases h1 : (e.dir == tempDirName) <;>
    cases h2 : pyStartsWith e.name "temp_" <;> simp_all

theorem storageRemovals_matches (B : Nat) (fs : List FileEntry) :
    ∀ e ∈ storageRemovalsWith B fs, keepPred e = false := by
  intro e he
  unfold storageRemovalsWith at he
  by_cases hb : sizeSum (tempEntries fs) ≤ B
  · simp only [if_pos hb] at he
    simp at he
  · simp only [if_neg hb] at he
    have h1 : e ∈ sortByMtime (tempEntries fs) :=
      budgetLoop_subset _ _ _ _ e he
    have h2 : e ∈ tempEntries fs :=
      (sortByMtime_perm (tempEntries fs)).mem_iff.mp h1
    rw [tempEntries_eq] at h2
    rcases List.mem_filter.mp h2 with ⟨_, hp⟩
    unfold keepPred
    cases h3 : (e.dir == tempDirName) <;>
      cases h4 : pyStartsWith e.name "temp_" <;> simp_all

theorem purgeRemovals_matches (fs : List FileEntry) :
    ∀ e ∈ purgeRemovals fs, keepPred e = false := by
  intro e he
  unfold purgeRemovals listTempDir at he
  rcases List.mem_filter.mp he with ⟨hd, hp⟩
  rcases List.mem_filter.mp hd with ⟨_, hdir⟩
  unfold keepPred
  simp [hdir, hp]

/-! ## Claim theorems -/

/-- C7: one run of the age-based eviction sweep (`cleanup_temp_files`, with
the implementation's threshold of 1800 seconds) removes exactly those
cache entries whose age `now - mtime` exceeds 1800, and removes none whose
age is at most 1800: the removal list is the age-filtered temp-entry list,
and the surviving filesystem keeps precisely the non-matching files. -/
theorem age_eviction_exact (now : Int) (fs : List FileEntry) :
    cleanupRemovals now fs
        = (tempEntries fs).filter (fun e => decide (1800 < now - e.mtime)) ∧
    cleanup_temp_files now fs
        = fs.filter (fun e =>
            !((pyStartsWith e.name "temp_" && decide (1800 < now - e.mtime))
              && (e.dir == tempDirName))) := by
  constructor
  · rw [cleanupRemovals_eq, tempEntries_eq, List.filter_filter]
    refine List.filter_congr ?_
    intro x _
    cases h1 : pyStartsWith x.name "temp_" <;>
      cases h2 : (x.dir == tempDirName) <;>
      cases h3 : decide (1800 < now - x.mtime) <;> simp [h1, h2, h3]
  · unfold cleanup_temp_files
    rw [cleanupRemovals_eq, removeAll_of_filter]

/-- C10: all three cache-eviction operations — the periodic age sweep, the
size-budget sweep, and the full purge — delete only `temp_`-prefixed files
inside the temp streaming directory: the sub-list of files NOT matching
that shape (in particular final downloads outside the temp dir) is exactly
preserved by each. -/
theorem eviction_frame (now : Int) (fs : List FileEntry) :
    (cleanup_temp_files now fs).filter keepPred = fs.filter keepPred ∧
    (manage_storage_size fs).filter keepPred = fs.filter keepPred ∧
    (cleanup_all_temp_files fs).filter keepPred = fs.filter keepPred := by
  refine ⟨?_, ?_, ?_⟩
  · exact removeAll_frame fs _ keepPred (cleanupRemovals_matches now fs)
  · exact removeAll_frame fs _ keepPred
      (storageRemovals_matches (1024 * 1024 * 1024) fs)
  · exact removeAll_frame fs _ keepPred (purgeRemovals_matches fs)

/-- C5: when the aggregate cache size is within the budget the size-budget
sweep deletes nothing; when it exceeds the budget, the deleted entries
form an initial segment of the mtime-ascending (oldest-first) ordering of
the cache entries, after the sweep the remaining total is within budget,
and no entry beyond the stopping point is deleted: before each deletion
the remaining total still exceeded the budget. -/
theorem size_budget_sweep (B : Nat) (fs : List FileEntry) :
    (sizeSum (tempEntries fs) ≤ B →
      storageRemovalsWith B fs = [] ∧ manage_storage_size_with B fs = fs) ∧
    (B < sizeSum (tempEntries fs) →
      storageRemovalsWith B fs
          = (sortByMtime (tempEntries fs)).take
              (storageRemovalsWith B fs).length ∧
      List.Pairwise (fun a b => a.mtime ≤ b.mtime)
        (storageRemovalsWith B fs) ∧
      sizeSum (tempEntries fs) - sizeSum (storageRemovalsWith B fs) ≤ B ∧
      (∀ k, k < (storageRemovalsWith B fs).length →
        B < sizeSum (tempEntries fs)
              - sizeSum ((storageRemovalsWith B fs).take k))) := by
  constructor
  · intro h
    have hrem : storageRemovalsWith B fs = [] := by
      unfold storageRemovalsWith
      rw [if_pos h]
    refine ⟨hrem, ?_⟩
    unfold manage_storage_size_with removeAll
    rw [hrem]
    refine List.filter_eq_self.mpr ?_
    intro a _
    simp
  · intro h
    have hn : ¬ (sizeSum (tempEntries fs) ≤ B) := by omega
    have hrem : storageRemovalsWith B fs
        = budgetLoop (sizeSum (tempEntries fs)) B 0
            (sortByMtime (tempEntries fs)) := by
      unfold storageRemovalsWith
      rw [if_neg hn]
    have hsum : sizeSum (sortByMtime (tempEntries fs))
        = sizeSum (tempEntries fs) :=
      sizeSum_of_perm (sortByMtime_perm (tempEntries fs))
    refine ⟨?_, ?_, ?_, ?_⟩
    · rw [hrem]
      exact budgetLoop_take _ _ _ _
    · rw [hrem, budgetLoop_take (sizeSum (tempEntries fs)) B
        (sortByMtime (tempEntries fs)) 0]
      exact List.Pairwise.sublist (List.take_sublist _ _)
        (sortByMtime_pairwise _)
    · rw [hrem]
      have h0 : sizeSum (tempEntries fs)
          ≤ 0 + sizeSum (sortByMtime (tempEntries fs)) := by omega
      have hu := budgetLoop_under (sizeSum (tempEntries fs)) B
        (sortByMtime (tempEntries fs)) 0 h0
      omega
    · intro k hk
      rw [hrem] at hk ⊢
      have hm := budgetLoop_min (sizeSum (tempEntries fs)) B
        (sortByMtime (tempEntries fs)) 0 k hk
      omega

/-- Witness for C5: a concrete under-budget state deletes nothing; a
concrete over-budget state (15 bytes against a 6-byte budget) satisfies
the oldest-first, stop-at-budget characterization. -/
theorem size_budget_sweep_witness :
    (storageRemovalsWith 6 fsUnder = []
      ∧ manage_storage_size_with 6 fsUnder = fsUnder) ∧
    (storageRemovalsWith 6 fsOver
        = (sortByMtime (tempEntries fsOver)).take
            (storageRemovalsWith 6 fsOver).length ∧
      List.Pairwise (fun a b => a.mtime ≤ b.mtime)
        (storageRemovalsWith 6 fsOver) ∧
      sizeSum (tempEntries fsOver) - sizeSum (storageRemovalsWith 6 fsOver)
        ≤ 6 ∧
      (∀ k, k < (storageRemovalsWith 6 fsOver).length →
        6 < sizeSum (tempEntries fsOver)
              - sizeSum ((storageRemovalsWith 6 fsOver).take k))) :=
  ⟨(size_budget_sweep 6 fsUnder).1 (by decide),
   (size_budget_sweep 6 fsOver).2 (by decide)⟩

/-- C6: with the derived cache path initially absent and a fetch that
materializes it, two `download_for_streaming` calls for the same resolved
title perform the fetch exactly once in total: the first call fetches
(one fetch) and returns the derived path; the second finds the file at
that path and returns the same result with the filesystem untouched and
zero fetches. -/
theorem resolve_or_fetch_once (fs0 : CacheFS) (i : ResolvedInfo)
    (fetch : CacheFS → String → CacheFS × Bool)
    (hmiss : fs0.files.contains (tempPath i.title i.ext) = false)
    (hok : (fetch fs0 (tempPath i.title i.ext)).2 = true)
    (hmat : (fetch fs0 (tempPath i.title i.ext)).1.files.contains
        (tempPath i.title i.ext) = true) :
    (download_for_streaming fs0 (some i) fetch).result
        = some (tempPath i.title i.ext, i.title, i.duration) ∧
    (download_for_streaming fs0 (some i) fetch).fetchCalls = 1 ∧
    (download_for_streaming (download_for_streaming fs0 (some i) fetch).fs
        (some i) fetch).result
      = (download_for_streaming fs0 (some i) fetch).result ∧
    (download_for_streaming (download_for_streaming fs0 (some i) fetch).fs
        (some i) fetch).fs
      = (download_for_streaming fs0 (some i) fetch).fs ∧
    (download_for_streaming (download_for_streaming fs0 (some i) fetch).fs
        (some i) fetch).fetchCalls = 0 := by
  have hmiss' : tempPath i.title i.ext ∉ fs0.files := by simpa using hmiss
  have hmat' : tempPath i.title i.ext
      ∈ (fetch fs0 (tempPath i.title i.ext)).1.files := by simpa using hmat
  have e1 : download_for_streaming fs0 (some i) fetch
      = ⟨(fetch fs0 (tempPath i.title i.ext)).1,
         some (tempPath i.title i.ext, i.title, i.duration), 1⟩ := by
    simp [download_for_streaming, hmiss', hok, hmat']
  have e2 : download_for_streaming (fetch fs0 (tempPath i.title i.ext)).1
      (some i) fetch
      = ⟨(fetch fs0 (tempPath i.title i.ext)).1,
         some (tempPath i.title i.ext, i.title, i.duration), 0⟩ := by
    simp [download_for_streaming, hmat']
  rw [e1]
  rw [e2]
  exact ⟨rfl, rfl, rfl, rfl, rfl⟩

/-- Witness for C6: an empty cache, the track "My Song: Live!", and a
fetch that creates the requested path — one fetch on the first call, none
on the second, same returned path. -/
theorem resolve_or_fetch_once_witness :
    (download_for_streaming ⟨[]⟩ (some infoW) fetchW).fetchCalls = 1 ∧
    (download_for_streaming
        (download_for_streaming ⟨[]⟩ (some infoW) fetchW).fs
        (some infoW) fetchW).fetchCalls = 0 ∧
    (download_for_streaming
        (download_for_streaming ⟨[]⟩ (some infoW) fetchW).fs
        (some infoW) fetchW).result
      = (download_for_streaming ⟨[]⟩ (some infoW) fetchW).result :=
  ⟨(resolve_or_fetch_once ⟨[]⟩ infoW fetchW (by decide) (by decide)
      (by decide)).2.1,
   (resolve_or_fetch_once ⟨[]⟩ infoW fetchW (by decide) (by decide)
      (by decide)).2.2.2.2,
   (resolve_or_fetch_once ⟨[]⟩ infoW fetchW (by decide) (by decide)
      (by decide)).2.2.1⟩

/-- C1 (code bug): `play_in_background` followed by `stop_in_background`
leaves the sender-side Downloads command file holding only the `STOP`
line — each send overwrites that one file, so last-write-wins holds on
the sender side — but the executor's command file (under the app-private
external-files dir, the one `receive_if_new` polls) was never written,
so a single receive with a fresh cursor observes NOTHING, not `STOP`:
the sent commands are never delivered. -/
theorem command_channel_misdirected :
    (stop_in_background
        (play_in_background ⟨none, none, none⟩ "/tmp/x.mp3" 1) 2
      ).downloadsCmdFile
      = some { content := "STOP", mtime := 2 } ∧
    (stop_in_background
        (play_in_background ⟨none, none, none⟩ "/tmp/x.mp3" 1) 2
      ).appFilesCmdFile
      = none ∧
    receive_if_new 0
        (stop_in_background
          (play_in_background ⟨none, none, none⟩ "/tmp/x.mp3" 1) 2)
      = none :=
  ⟨rfl, rfl, rfl⟩

/-- C3 (code bug): after `AndroidPlayer().play("/tmp/song.m4a")` the
player handle holds the track, but `on_completion`'s read of
`player.current_file_path` — an attribute nothing in the repository
assigns — raises `AttributeError`, so on track completion no
`completed=true` record is written at all. -/
theorem completion_record_attribute_error :
    (AndroidPlayer.init.play "/tmp/song.m4a").player
        = some { dataSource := some "/tmp/song.m4a", playing := true,
                 positionMs := 0, durationMs := 0 } ∧
    on_completion_write (AndroidPlayer.init.play "/tmp/song.m4a")
        ⟨none, none, none⟩
      = Except.error PyErr.attributeError :=
  ⟨rfl, rfl⟩

theorem dispatchCmd_running (s : ExecState) (fs : ServiceFS) (cmd : String) :
    (dispatchCmd s fs cmd).1.running = (!(cmd == "STOP") && s.running) := by
  unfold dispatchCmd
  by_cases hq : cmd = "STOP"
  · subst hq
    simp only [show pyStartsWith "STOP" "PLAY|" = false from rfl,
      show ("STOP" == "PAUSE") = false from rfl,
      show ("STOP" == "RESUME") = false from rfl,
      show ("STOP" == "STOP") = true from rfl,
      Bool.false_eq_true, if_false, if_true, Bool.not_true, Bool.false_and]
  · have hq' : (cmd == "STOP") = false := beq_eq_false_iff_ne.mpr hq
    simp only [hq', Bool.not_false, Bool.true_and, Bool.false_eq_true,
      if_false]
    by_cases h1 : pyStartsWith cmd "PLAY|" = true
    · simp [h1]
    · simp only [h1, Bool.false_eq_true, if_false]
      by_cases h2 : (cmd == "PAUSE") = true
      · simp [h2]
      · simp only [h2, Bool.false_eq_true, if_false]
        by_cases h3 : (cmd == "RESUME") = true
        · simp [h3]
        · simp only [h3, Bool.false_eq_true, if_false]
          by_cases h5 : pyStartsWith cmd "SEEK|" = true
          · simp only [h5, if_true]
            cases hp : parseIntChars (untilBar (afterBar cmd.data)) <;> simp
          · simp [h5]

theorem run_service_step_fst (s : ExecState) (fs : ServiceFS) :
    (run_service_step s fs).1 = (pollCmd s fs).1 := by
  simp only [run_service_step]
  by_cases h : (pollCmd s fs).1.running = true
  · simp [h]
  · simp [h]

/-- C2 counterexample: a live executor that has not yet consumed any
command, offered a freshly-written `STOP`, exits its polling loop in that
very iteration — a command DOES terminate the loop (service.py:64-69:
`service.stopSelf()` and `break`). -/
theorem executor_exits_on_stop :
    sRun.running = true ∧ newCmdIsStop sRun fsStop = true ∧
    (run_service_step sRun fsStop).1.running = false :=
  ⟨rfl, by decide, by decide⟩

/-- C2 (amended): one executor-loop iteration exits the loop exactly when
the freshly observed (strictly newer mtime, stripped) command is `STOP`;
every other command — PLAY, PAUSE, RESUME, SEEK, malformed lines, parse
failures — and every swallowed error leaves the loop running. -/
theorem executor_loop_exit_iff_stop (s : ExecState) (fs : ServiceFS) :
    (run_service_step s fs).1.running
      = (!newCmdIsStop s fs && s.running) := by
  rw [run_service_step_fst]
  unfold pollCmd newCmdIsStop
  cases hcf : fs.appFilesCmdFile with
  | none => simp
  | some cf =>
    by_cases hm : s.lastMtime < cf.mtime
    · simp only [if_pos hm, hm, decide_True, Bool.true_and]
      exact dispatchCmd_running _ fs _
    · simp [if_neg hm, hm]

/-- C4 counterexample: the source controller's completion handling does
not compare file_path at all. On two consecutive terminal polls the
controller fires exactly one completion event (it cleared its media
player); the spec's compare-by-file_path dedup, fed the corresponding two
`completed=true` snapshots with distinct file_paths, would fire two. The
controller therefore does not deduplicate by comparing file_path against
the last-processed completion. -/
theorem status_dedup_not_by_path :
    controllerRun rPlaying [VLCState.ended, VLCState.ended] = 1 ∧
    specDedupRun ⟨none⟩ [(true, "/tmp/A.m4a"), (true, "/tmp/B.m4a")] = 2 ∧
    controllerRun rPlaying [VLCState.ended, VLCState.ended]
      = controllerRun { rPlaying with mediaPlayer := some "/tmp/B.m4a" }
          [VLCState.ended, VLCState.ended] := by
  decide

theorem update_progress_no_player (x : RootState) (o : VLCState)
    (hx : x.mediaPlayer = none) : update_progress x o = (x, []) := by
  simp [update_progress, hx]

theorem update_progress_terminal (r : RootState) (o : VLCState) (f : String)
    (hf : r.mediaPlayer = some f) (ho : terminalVLC o = true) :
    update_progress r o
      = (if r.autoplay_enabled && !r.playlist_urls.isEmpty
            && decide (r.current_index < r.playlist_urls.length - 1) then
           ({ stop_playback r with current_index := r.current_index + 1 },
            [r.playlist_urls.getD (r.current_index + 1) ""])
         else (stop_playback r, [])) := by
  cases o <;> simp [terminalVLC] at ho <;>
    simp [update_progress, hf, stop_playback]

/-- C4 (amended): two consecutive polls that both observe a terminal
player state produce at most one completion event: the first poll clears
the controller's media player (at most one load fired), and the second
poll — seeing no player — is a no-op, regardless of any file_path. The
source deduplicates by clearing the player, not by comparing file_path. -/
theorem completion_processed_once (r : RootState) (o1 o2 : VLCState)
    (h : r.mediaPlayer.isSome = true)
    (h1 : terminalVLC o1 = true) (_h2 : terminalVLC o2 = true) :
    (update_progress r o1).1.mediaPlayer = none ∧
    (update_progress r o1).2.length ≤ 1 ∧
    update_progress (update_progress r o1).1 o2
      = ((update_progress r o1).1, []) := by
  obtain ⟨f, hf⟩ := Option.isSome_iff_exists.mp h
  have ht := update_progress_terminal r o1 f hf h1
  by_cases hc : (r.autoplay_enabled && !r.playlist_urls.isEmpty
      && decide (r.current_index < r.playlist_urls.length - 1)) = true
  · rw [ht, if_pos hc]
    exact ⟨rfl, by simp, update_progress_no_player _ o2 rfl⟩
  · rw [ht, if_neg hc]
    exact ⟨rfl, by simp, update_progress_no_player _ o2 rfl⟩

/-- Witness for the amended C4: the playing three-track controller under
two consecutive Ended polls. -/
theorem completion_processed_once_witness :
    (update_progress rPlaying VLCState.ended).1.mediaPlayer = none ∧
    (update_progress rPlaying VLCState.ended).2.length ≤ 1 ∧
    update_progress (update_progress rPlaying VLCState.ended).1
        VLCState.ended
      = ((update_progress rPlaying VLCState.ended).1, []) :=
  completion_processed_once rPlaying VLCState.ended VLCState.ended rfl rfl
    rfl

/-- C8: on a completion event with autoplay enabled: below the last
playlist index the controller advances `current_index` by exactly one and
starts loading that entry; at the last index it leaves `current_index`
unchanged, starts no load, and stays stopped (no player, not playing). -/
theorem autoplay_advance (r : RootState)
    (h : r.mediaPlayer.isSome = true) (hap : r.autoplay_enabled = true) :
    (r.current_index < r.playlist_urls.length - 1 →
      (update_progress r VLCState.ended).1.current_index
          = r.current_index + 1 ∧
      (update_progress r VLCState.ended).2
          = [r.playlist_urls.getD (r.current_index + 1) ""]) ∧
    (0 < r.playlist_urls.length →
      r.current_index = r.playlist_urls.length - 1 →
      (update_progress r VLCState.ended).1.current_index = r.current_index ∧
      (update_progress r VLCState.ended).2 = [] ∧
      (update_progress r VLCState.ended).1.mediaPlayer = none ∧
      (update_progress r VLCState.ended).1.is_playing = false) := by
  obtain ⟨f, hf⟩ := Option.isSome_iff_exists.mp h
  have ht := update_progress_terminal r VLCState.ended f hf rfl
  constructor
  · intro hidx
    have hne : r.playlist_urls.isEmpty = false := by
      cases hl : r.playlist_urls with
      | nil => rw [hl] at hidx; simp at hidx
      | cons a as => simp
    have hc : (r.autoplay_enabled && !r.playlist_urls.isEmpty
        && decide (r.current_index < r.playlist_urls.length - 1)) = true := by
      simp [hap, hne, hidx]
    rw [ht, if_pos hc]
    exact ⟨rfl, rfl⟩
  · intro _ hidx
    have hc : (r.autoplay_enabled && !r.playlist_urls.isEmpty
        && decide (r.current_index < r.playlist_urls.length - 1)) = false := by
      have : ¬ (r.current_index < r.playlist_urls.length - 1) := by omega
      simp [this]
    rw [ht, if_neg (by simp [hc])]
    exact ⟨rfl, rfl, rfl, rfl⟩

/-- Witness for C8: the three-entry playlist at index 0 advances to index
1 and loads `u1`; at index 2 (last entry) it does not advance and stays
stopped. -/
theorem autoplay_advance_witness :
    ((update_progress rPlaying VLCState.ended).1.current_index = 1 ∧
     (update_progress rPlaying VLCState.ended).2 = ["u1"]) ∧
    ((update_progress rLast VLCState.ended).1.current_index = 2 ∧
     (update_progress rLast VLCState.ended).2 = [] ∧
     (update_progress rLast VLCState.ended).1.mediaPlayer = none ∧
     (update_progress rLast VLCState.ended).1.is_playing = false) :=
  ⟨(autoplay_advance rPlaying rfl rfl).1 (by decide),
   (autoplay_advance rLast rfl rfl).2 (by decide) (by decide)⟩

/-- C9 counterexample: with the download worker alive, a streaming request
is NOT rejected as busy — `on_stream` spawns its loader unconditionally
(main.py:299-304 has no busy check and never consults `self._worker`), so
it runs concurrently with the in-flight worker. -/
theorem stream_request_not_rejected :
    rBusy.workerAlive = true ∧
    (on_stream rBusy "https://youtu.be/x" true).2 = ReqOutcome.started :=
  ⟨rfl, by decide⟩

/-- C9 (amended): only the batch-download path is single-flight — a
download request while the tracked worker is alive is rejected with the
busy status and changes nothing, while a streaming request with the same
in-flight worker still starts. -/
theorem single_flight_download_only (r : RootState) (txt : String)
    (hurl : (pyStrip txt == "") = false) (hw : r.workerAlive = true) :
    on_download r txt = (r, ReqOutcome.busy) ∧
    (on_stream r txt true).2 = ReqOutcome.started := by
  constructor
  · unfold on_download
    simp [hurl, hw]
  · unfold on_stream
    simp [hurl]

/-- Witness for the amended C9: a busy controller given the url `u`. -/
theorem single_flight_download_only_witness :
    on_download rBusy "u" = (rBusy, ReqOutcome.busy) ∧
    (on_stream rBusy "u" true).2 = ReqOutcome.started :=
  single_flight_download_only rBusy "u" (by decide) rfl

end YtMp3
